import Mathlib

/-!
Verification of the `src/modularized` rental scraper.

A shallow embedding of the core of `maiktreya/rental-scrapers`
(`src/modularized/`: `parser.py`, `base_headers.py`, `scraper.py`,
`config.py`) together with theorems settling the spec claims.

Conventions of the embedding:
* Python floats are modelled as `ℚ` (every value the parser produces is a
  finite decimal, exactly representable).
* Wall-clock time (`time.time()`) is a `ℕ` parameter threaded explicitly.
* Randomness (`random.choice`, Camoufox header capture, HTTP responses) is
  modelled by explicit oracle parameters.
* Python exceptions are modelled with `Except`/`Option`: a function that the
  Python code keeps total by catching exceptions is a total Lean function.
-/

namespace RentalScrapers

/-! Section: `parser.py`, `IdealistaParser._parse_numeric`.

Python source (parser.py, lines 17-37):
```
clean_text = re.sub(r"[^\d,.]", "", text.strip())
if "," in clean_text:
    clean_text = clean_text.replace(".", "").replace(",", ".")
elif "." in clean_text:
    clean_text = clean_text.replace(".", "")
try: return float(clean_text)
except ValueError: return None
```
-/

/-- Characters kept by the regex `[^\d,.]` substitution: digits, comma, dot.
(`\d` restricted to ASCII digits; every input in scope is ASCII.) -/
def isNumChar (c : Char) : Bool := c.isDigit || c == ',' || c == '.'

/-- Value of a digit string read left to right, as `int`/`float` digits do. -/
def digitsVal (l : List Char) : ℕ :=
  l.foldl (fun a c => a * 10 + (c.toNat - 48)) 0

/-- Model of Python `float(s)` restricted to the strings `_parse_numeric`
can pass it: strings made only of ASCII digits and dots.  Accepts at most
one dot with at least one digit overall (`"1."`, `".5"`, `"12"`), rejects
everything else (`""`, `"."`, `"1.2.3"`) with `none` (a `ValueError` in
Python, caught by the caller). -/
def pyFloat (l : List Char) : Option ℚ :=
  if ¬ l.all (fun c => c.isDigit || c == '.') then none
  else if (l.filter (fun c => c == '.')).length == 0 then
    if l.isEmpty then none else some (mkRat (digitsVal l) 1)
  else if (l.filter (fun c => c == '.')).length == 1 then
    let ip := l.takeWhile (fun c => c != '.')
    let fp := (l.dropWhile (fun c => c != '.')).tail
    if ip.isEmpty && fp.isEmpty then none
    else some (mkRat (digitsVal ip * 10 ^ fp.length + digitsVal fp) (10 ^ fp.length))
  else none

/-- Model of `IdealistaParser._parse_numeric`.  The Python `text.strip()` is subsumed
by the character filter: the regex already deletes every whitespace
character, so stripping first does not change the filtered list. -/
def parse_numeric (text : String) : Option ℚ :=
  if text.isEmpty then none
  else
    let clean := text.toList.filter isNumChar
    let final :=
      if clean.contains ',' then
        (clean.filter (fun c => c != '.')).map (fun c => if c == ',' then '.' else c)
      else if clean.contains '.' then
        clean.filter (fun c => c != '.')
      else clean
    pyFloat final

example : parse_numeric "1.200" = some 1200 := by
  have h : parse_numeric "1.200" = some (mkRat 1200 1) := rfl
  rw [h, Rat.mkRat_eq_div]; norm_num
example : parse_numeric "1.200,50" = some (2401 / 2 : ℚ) := by
  have h : parse_numeric "1.200,50" = some (mkRat 120050 100) := rfl
  rw [h, Rat.mkRat_eq_div]; norm_num
example : parse_numeric "no price" = none := by decide
example : parse_numeric "850 €/mes" = some 850 := by
  have h : parse_numeric "850 €/mes" = some (mkRat 850 1) := rfl
  rw [h, Rat.mkRat_eq_div]; norm_num

/-! Section: `parser.py`, the page model and `_parse_article`,
`extract_listings_from_page`, `find_next_page_url`. -/

/-- Python `int()` applied to a float: truncation toward zero. -/
def pyInt (q : ℚ) : ℤ := if 0 ≤ q then ⌊q⌋ else -⌊-q⌋

/-- The remainder of `l` after the first occurrence of `sep`, or `none`
when `sep` does not occur.  `some` exactly models Python's `sep in s`, and
the payload models `s.split(sep, 1)[-1]` when `sep` occurs. -/
def afterFirst (sep : List Char) : List Char → Option (List Char)
  | [] => none
  | c :: rest =>
    if sep.isPrefixOf (c :: rest) then some ((c :: rest).drop sep.length)
    else afterFirst sep rest

/-- Python substring test `pat in s`, for a nonempty pattern. -/
def strContains (s pat : String) : Bool := (afterFirst pat.toList s.toList).isSome

/-- Split at the first occurrence of `sep`: the parts strictly before and
strictly after it. -/
def splitFirstAux (sep : List Char) : List Char → List Char → Option (List Char × List Char)
  | [], _ => none
  | c :: rest, acc =>
    if sep.isPrefixOf (c :: rest) then some (acc.reverse, (c :: rest).drop sep.length)
    else splitFirstAux sep rest (c :: acc)

def splitFirst (sep l : List Char) : Option (List Char × List Char) :=
  splitFirstAux sep l []

/-- Python `s.strip()` (ASCII whitespace suffices for the inputs in scope). -/
def trimL (l : List Char) : List Char :=
  ((l.dropWhile Char.isWhitespace).reverse.dropWhile Char.isWhitespace).reverse

def pyStrip (s : String) : String := String.mk (trimL s.toList)

/-- `s.startswith(p)` / Lean's `String.startsWith`, at the character level
so that proofs can evaluate it. -/
def strStarts (s p : String) : Bool := p.toList.isPrefixOf s.toList

/-- The first maximal run of digits in a string —
`int(re.search(r'\d+', s).group())` — or `none` when no digit occurs
(an `AttributeError` in Python, caught at the call site). -/
def firstDigitRun (s : String) : Option ℕ :=
  let run := (s.toList.dropWhile (fun c => ¬ c.isDigit)).takeWhile Char.isDigit
  if run.isEmpty then none else some (digitsVal run)

/-- Scheme of an http(s) base URL (the subset this repository ever joins
against). -/
def schemeOf (base : String) : String :=
  if strStarts base "https://" then "https" else "http"

/-- The `scheme://host` part of an http(s) URL. -/
def schemeHost (base : String) : String :=
  match splitFirst "://".toList base.toList with
  | some (sch, rest) =>
    String.mk sch ++ "://" ++ String.mk (rest.takeWhile (fun c => c != '/'))
  | none => base

/-- Keep everything up to and including the last slash. -/
def keepToLastSlash (rest : List Char) : List Char :=
  (rest.reverse.dropWhile (fun c => c != '/')).reverse

/-- Model of `urllib.parse.urljoin`, restricted to the reference shapes this
repository produces against an absolute http(s) base: an empty link, an
absolute http(s) link, a protocol-relative link (`//host/path`), a
root-relative link (`/path`), and a plain relative path free of dot
segments. -/
def urljoin (base url : String) : String :=
  if url = "" then base
  else if strStarts url "http://" || strStarts url "https://" then url
  else if strStarts url "//" then schemeOf base ++ ":" ++ url
  else if strStarts url "/" then schemeHost base ++ url
  else
    match splitFirst "://".toList base.toList with
    | some (sch, rest) =>
      if rest.contains '/' then
        String.mk sch ++ "://" ++ String.mk (keepToLastSlash rest) ++ url
      else String.mk sch ++ "://" ++ String.mk rest ++ "/" ++ url
    | none => url

example : urljoin "https://www.idealista.com/a/b" "/c" = "https://www.idealista.com/c" := by decide
example : urljoin "https://x.com/a/" "" = "https://x.com/a/" := by decide
example : urljoin "https://x.com/a/b" "c" = "https://x.com/a/c" := by decide

/-- One listing card (`article.item`), holding exactly the fields
`_parse_article` reads from the HTML fragment:
`link` is the `href` of `a.item-link` when that tag exists and has the
attribute; `title` is that tag's stripped text (`get_text(strip=True)`);
`priceText` / `pricedownText` are the stripped texts of `span.item-price` /
`span.pricedown_price` when present; `details` are the stripped texts of the
`span.item-detail` children in document order; `branding` is the advertiser
name computed from `picture.logo-branding` when that element is present
(the empty string when its `img` or `alt` is missing); `descriptionText` is
the stripped text of `div.item-description p.ellipsis` when present;
`thirdDetailText` is the text of `span.item-detail:nth-of-type(3)` when
present. -/
structure Card where
  link : Option String
  title : String
  priceText : Option String
  pricedownText : Option String
  details : List String
  branding : Option String
  descriptionText : Option String
  thirdDetailText : Option String
deriving DecidableEq

/-- One scraped listing record, the dict built by `_parse_article`.
Fields the Python code either leaves absent or sets to `None` are both
modelled as `none`. -/
structure Listing where
  scraped_at : ℕ
  source_url : String
  property_type : String
  url : String
  title : String
  location : String
  price : Option ℤ
  pricedown_price : Option ℤ
  num_bedrooms : Option ℕ
  size_sqm : Option ℤ
  advertiser_type : String
  advertiser_name : String
  description : Option String
  flat_floor_number : Option String
deriving DecidableEq

/-- Model of `IdealistaParser._parse_article` (parser.py, lines 52-140).
Returns `none` exactly when the card has no `a.item-link` tag with an
`href` attribute; after that check every extraction in the Python body is
guarded, so the function is total (the outer `try/except` never fires on
this model). `nowIso` stands for `datetime.now().isoformat()`. -/
def parse_article (card : Card) (base_url : String) (property_type : String)
    (nowIso : ℕ) : Option Listing :=
  match card.link with
  | none => none
  | some href0 =>
    let href := pyStrip href0
    let url :=
      if strStarts href "//" then "https:" ++ href
      else if strStarts href "/" then urljoin "https://www.idealista.com" href
      else href
    let title := card.title
    let location :=
      match afterFirst " en ".toList title.toList with
      | some l => String.mk l
      | none => ""
    some {
      scraped_at := nowIso
      source_url := base_url
      property_type := property_type
      url := url
      title := title
      location := location
      price := (card.priceText.bind parse_numeric).map pyInt
      pricedown_price := (card.pricedownText.bind parse_numeric).map pyInt
      num_bedrooms := (card.details.find? (fun d => strContains d "hab.")).bind firstDigitRun
      size_sqm :=
        ((card.details.find? (fun d => strContains d "m²" || strContains d "m2")).bind
          parse_numeric).map pyInt
      advertiser_type := if card.branding.isSome then "company" else "individual"
      advertiser_name := card.branding.getD ""
      description := card.descriptionText
      flat_floor_number := card.thirdDetailText }

/-- One parsed HTML page: the `article.item` cards in document order, and
the pagination control.  `nextLink` is `some h?` when the selector
`a[rel=next], li.next > a` matches a tag, and then `h?` is `some href`
when that tag carries an `href` attribute. -/
structure Page where
  cards : List Card
  nextLink : Option (Option String)
deriving DecidableEq

/-- Model of `IdealistaParser.extract_listings_from_page` (parser.py,
lines 39-50): parse every card, keep the non-`None` results (a listing
dict is never empty, so Python's truthiness filter keeps exactly the
successful parses). -/
def extract_listings_from_page (page : Page) (base_url : String)
    (property_type : String) (nowIso : ℕ) : List Listing :=
  (page.cards.map (fun c => parse_article c base_url property_type nowIso)).filterMap id

/-- Model of `IdealistaParser.find_next_page_url` (parser.py, lines
142-147): if the pagination selector matches a tag with an `href`, resolve
it against `base_url`; otherwise `None`. -/
def find_next_page_url (page : Page) (base_url : String) : Option String :=
  match page.nextLink with
  | some (some href) => some (urljoin base_url href)
  | _ => none

/-- A fetched HTTP body: `emptyText` records whether `response.text` is the
empty string (the `if not content: break` check in `scrape_target`), and
`page` is its parse. -/
structure Html where
  emptyText : Bool
  page : Page
deriving DecidableEq

/-! Section: `config.py`, `ScraperConfig` (the fields the core reads;
`delay` and `timeout` are Python floats, modelled as `ℚ`). -/

structure ScraperConfig where
  delay : ℚ
  header_refresh_requests : ℕ
  max_retries : ℕ
  max_pages : ℕ
  user_agents : List String
deriving DecidableEq

/-- The dataclass defaults of `ScraperConfig`. -/
def defaultConfig : ScraperConfig where
  delay := 5
  header_refresh_requests := 100
  max_retries := 3
  max_pages := 50
  user_agents :=
    ["Mozilla/5.0 (Windows NT 10.0; Win64; x64) AppleWebKit/537.36 (KHTML, like Gecko) Chrome/114.0.0.0 Safari/537.36"]

/-! Section: `base_headers.py`, `HeaderManager`.

Wall-clock time (`time.time()`) is a `ℕ` parameter `now`; the Camoufox
browser run inside `_generate_session_headers` is an oracle value
`GenOutcome`; `random.choice(self.config.user_agents)` is the parameter
`ua`. -/

/-- A header mapping, in insertion order as a Python dict iterates. -/
abbrev Headers := List (String × String)

/-- What one Camoufox run produces: an exception anywhere during
generation (`failure`), or a navigation that captured the header dict
`hs` (possibly empty, when the request listener never fired) together
with the optional datadome cookie value. -/
inductive GenOutcome where
  | failure
  | captured (hs : Headers) (datadome : Option String)
deriving DecidableEq

/-- Python dict assignment `d[k] = v`: replace in place or append. -/
def setKey (hs : Headers) (k v : String) : Headers :=
  if hs.any (fun p => p.1 == k) then hs.map (fun p => if p.1 == k then (k, v) else p)
  else hs ++ [(k, v)]

/-- Model of `HeaderManager._get_fallback_headers` (base_headers.py,
lines 119-132); `ua` is the drawn element of `config.user_agents`. -/
def get_fallback_headers (ua : String) : Headers :=
  [("User-Agent", ua),
   ("Accept", "text/html,application/xhtml+xml,application/xml;q=0.9,image/webp,*/*;q=0.8"),
   ("Accept-Language", "en-US,en;q=0.5"),
   ("Accept-Encoding", "gzip, deflate, br"),
   ("Connection", "keep-alive"),
   ("Upgrade-Insecure-Requests", "1"),
   ("DNT", "1")]

/-- Model of `HeaderManager._generate_session_headers` (base_headers.py,
lines 65-117): on any exception, fall back; on an empty capture, fall
back; otherwise inject the datadome cookie (if any) into the captured
dict and return it. -/
def generate_session_headers (gen : GenOutcome) (ua : String) : Headers :=
  match gen with
  | .failure => get_fallback_headers ua
  | .captured hs dd =>
    if hs.isEmpty then get_fallback_headers ua
    else
      match dd with
      | some v => setKey hs "cookie" ("datadome=" ++ v)
      | none => hs

/-- The mutable fields of a `HeaderManager` instance. -/
structure HMState where
  headers : Option Headers
  request_count : ℕ
  last_refresh_time : ℕ
deriving DecidableEq

/-- `HeaderManager.__init__`: no headers, zero count, epoch refresh time. -/
def HMState.init : HMState := ⟨none, 0, 0⟩

/-- `self.refresh_interval_seconds = 3600`. -/
def refresh_interval_seconds : ℕ := 3600

/-- `HeaderManager.increment_request_count`. -/
def increment_request_count (s : HMState) : HMState :=
  { s with request_count := s.request_count + 1 }

/-- Model of `HeaderManager._should_refresh_headers` (base_headers.py,
lines 54-63).  `now - last_refresh_time` is truncated `ℕ` subtraction,
which decides `age ≥ 3600` exactly as the real-valued Python comparison
does, because 3600 > 0. -/
def should_refresh_headers (cfg : ScraperConfig) (now : ℕ) (s : HMState) : Bool :=
  s.headers.isNone || decide (cfg.header_refresh_requests ≤ s.request_count)
    || decide (refresh_interval_seconds ≤ now - s.last_refresh_time)

/-- Model of `HeaderManager.refresh_headers` (base_headers.py, lines
43-52): regenerate, zero the counter, stamp the clock. -/
def refresh_headers (gen : GenOutcome) (ua : String) (now : ℕ) (_s : HMState) : HMState :=
  { headers := some (generate_session_headers gen ua)
    request_count := 0
    last_refresh_time := now }

/-- Model of `HeaderManager.get_headers` (base_headers.py, lines 31-37).
Returns the headers value handed to the caller, the state afterwards,
and — as instrumentation of the control flow — whether the refresh branch
was taken. -/
def get_headers (cfg : ScraperConfig) (gen : GenOutcome) (ua : String) (now : ℕ)
    (s : HMState) : Option Headers × HMState × Bool :=
  if should_refresh_headers cfg now s then
    let s2 := refresh_headers gen ua now s
    (s2.headers, s2, true)
  else (s.headers, s, false)

/-! Section: `scraper.py`, `RentalScraper.make_request` and
`RentalScraper.scrape_target`.

The HTTP client is an oracle `ℕ → HttpOutcome` giving the outcome of each
attempt on one URL (and `String → ℕ → HttpOutcome` per URL inside
`scrape_target`).  `asyncio.sleep` calls are recorded in a trace instead
of elapsing; the inter-page jitter sleep is not recorded (no claim
mentions it). -/

/-- Outcome of one `client.get`: a 2xx response with body `content`
(so `raise_for_status` passes), a non-2xx response raising
`httpx.HTTPStatusError` with `code`, or an `httpx.RequestError`
(transport/timeout, no response). -/
inductive HttpOutcome where
  | success (content : Html)
  | statusError (code : ℕ)
  | transportError
deriving DecidableEq

/-- Instrumented result of one `make_request` call: number of attempts
issued, the back-off sleeps performed between consecutive attempts, the
header mapping passed to `client.get` on each attempt, the number of
`refresh_headers` calls made from the retry loop, the outcome (the Python
code raises `Exception("Max retries exceeded…")` where the model returns
`Except.error`), and the `HeaderManager` state afterwards. -/
structure ReqTrace where
  attempts : ℕ
  sleeps : List ℚ
  sentHeaders : List Headers
  refreshes : ℕ
  result : Except String Html
  finalState : HMState

/-- The retry loop of `make_request` (scraper.py, lines 47-69), unrolled on
the number `r` of remaining attempts (`r = max_retries - attempt`).  Each
attempt uses the local variable `headers` bound before the loop; a 403/429
status refreshes the manager's stored headers; a response of either kind
increments the request counter; the back-off sleep `delay * 2^attempt`
happens only when another attempt remains. -/
def make_request_go (cfg : ScraperConfig) (oracle : ℕ → HttpOutcome) (gen : GenOutcome)
    (ua : String) (now : ℕ) (headers : Headers) :
    HMState → ℕ → ℕ → ReqTrace
  | s, _, 0 =>
    { attempts := 0, sleeps := [], sentHeaders := [], refreshes := 0
      result := .error "Max retries exceeded for URL", finalState := s }
  | s, attempt, r + 1 =>
    match oracle attempt with
    | .success content =>
      { attempts := 1, sleeps := [], sentHeaders := [headers], refreshes := 0
        result := .ok content, finalState := increment_request_count s }
    | .statusError code =>
      let s1 := increment_request_count s
      let s2 := if code = 403 ∨ code = 429 then refresh_headers gen ua now s1 else s1
      let refr : ℕ := if code = 403 ∨ code = 429 then 1 else 0
      let rest := make_request_go cfg oracle gen ua now headers s2 (attempt + 1) r
      { attempts := rest.attempts + 1
        sleeps := (if 0 < r then [cfg.delay * 2 ^ attempt] else []) ++ rest.sleeps
        sentHeaders := headers :: rest.sentHeaders
        refreshes := refr + rest.refreshes
        result := rest.result, finalState := rest.finalState }
    | .transportError =>
      let rest := make_request_go cfg oracle gen ua now headers s (attempt + 1) r
      { attempts := rest.attempts + 1
        sleeps := (if 0 < r then [cfg.delay * 2 ^ attempt] else []) ++ rest.sleeps
        sentHeaders := headers :: rest.sentHeaders
        refreshes := rest.refreshes
        result := rest.result, finalState := rest.finalState }

/-- Model of `RentalScraper.make_request` (scraper.py, lines 44-69):
one `get_headers` call before the loop, then up to `max_retries`
attempts.  (`get_headers` always hands back `some` headers — it refreshes
whenever none are stored — so the `getD []` default is never used.) -/
def make_request (cfg : ScraperConfig) (oracle : ℕ → HttpOutcome) (gen : GenOutcome)
    (ua : String) (now : ℕ) (s : HMState) : ReqTrace :=
  let r := get_headers cfg gen ua now s
  make_request_go cfg oracle gen ua now (r.1.getD []) r.2.1 0 cfg.max_retries

/-- Observable trace of one `scrape_target` run: the page URLs passed to
`make_request` in order, the listings handed to
`db_manager.save_listing` in order, and the total number of header
refreshes triggered from the retry loops. -/
structure ScrapeTrace where
  fetched : List String
  saved : List Listing
  refreshes : ℕ
deriving DecidableEq

/-- `re.sub(r'\s+', '-', l)`: replace each maximal whitespace run by a
single dash. -/
def squashWs (l : List Char) : List Char :=
  (l.foldl (fun (acc : List Char × Bool) c =>
    if c.isWhitespace then (if acc.2 then acc else ('-' :: acc.1, true))
    else (c :: acc.1, false)) ([], false)).1.reverse

/-- The slug sanitisation in `scrape_target` (scraper.py, line 76):
`re.sub(r'\s+', '-', capital_slug.strip()).lower()`. -/
def sanitize_slug (slug : String) : String :=
  String.mk ((squashWs (trimL slug.toList)).map Char.toLower)

/-- The start URL built in `scrape_target` (scraper.py, lines 78-81). -/
def build_start_url (capital_slug property_type : String) : String :=
  "https://www.idealista.com/alquiler-"
    ++ (if property_type = "habitacion" then "habitaciones" else "viviendas")
    ++ "/" ++ sanitize_slug capital_slug ++ "/"

/-- The page loop of `scrape_target` (scraper.py, lines 85-118), unrolled
on a fuel that over-approximates the remaining loop iterations (the loop
itself is bounded by `page_num ≤ max_pages`, which is checked here on
every entry exactly as in the source).  A `make_request` failure is
caught (`except Exception: … break`); an empty body, an empty listing
list, a missing next link, an empty next URL (Python falsiness) and a
next URL equal to the current URL all `break`. -/
def scrape_target_go (cfg : ScraperConfig) (world : String → ℕ → HttpOutcome)
    (gen : GenOutcome) (ua : String) (now nowIso : ℕ) (property_type : String) :
    String → ℕ → HMState → ℕ → ScrapeTrace
  | _, _, _, 0 => ⟨[], [], 0⟩
  | current_url, page_num, s, f + 1 =>
    if current_url = "" ∨ cfg.max_pages < page_num then ⟨[], [], 0⟩
    else
      let tr := make_request cfg (world current_url) gen ua now s
      match tr.result with
      | .error _ => ⟨[current_url], [], tr.refreshes⟩
      | .ok content =>
        if content.emptyText then ⟨[current_url], [], tr.refreshes⟩
        else
          let listings :=
            extract_listings_from_page content.page current_url property_type nowIso
          if listings.isEmpty then ⟨[current_url], [], tr.refreshes⟩
          else
            match find_next_page_url content.page current_url with
            | some next_url =>
              if next_url ≠ "" ∧ next_url ≠ current_url then
                let rest := scrape_target_go cfg world gen ua now nowIso property_type
                  next_url (page_num + 1) tr.finalState f
                ⟨current_url :: rest.fetched, listings ++ rest.saved,
                  tr.refreshes + rest.refreshes⟩
              else ⟨[current_url], listings, tr.refreshes⟩
            | none => ⟨[current_url], listings, tr.refreshes⟩

/-- Model of `RentalScraper.scrape_target` (scraper.py, lines 71-118).
`s` is the `HeaderManager` state when the target starts (the manager
outlives one target).  The fuel `max_pages + 1` dominates the number of
loop iterations, which the guard `page_num ≤ max_pages` caps at
`max_pages`. -/
def scrape_target (cfg : ScraperConfig) (world : String → ℕ → HttpOutcome)
    (gen : GenOutcome) (ua : String) (now nowIso : ℕ)
    (capital_slug property_type : String) (s : HMState) : ScrapeTrace :=
  scrape_target_go cfg world gen ua now nowIso property_type
    (build_start_url capital_slug property_type) 1 s (cfg.max_pages + 1)

/-! Theorems.  Helper lemmas come first; the claim theorems are named
after the claim ids. -/

/-- A list consisting only of dots is rejected by the float parser. -/
theorem pyFloat_replicate_dot (n : ℕ) : pyFloat (List.replicate n '.') = none := by
  match n with
  | 0 => rfl
  | 1 => rfl
  | n + 2 =>
    unfold pyFloat
    have hall : (List.replicate (n + 2) '.').all (fun c => c.isDigit || c == '.') = true := by
      simp [List.all_eq_true]
    have hf : (List.replicate (n + 2) '.').filter (fun c => c == '.') =
        List.replicate (n + 2) '.' := by
      apply List.filter_eq_self.mpr
      intro a ha
      simp [List.eq_of_mem_replicate ha]
    simp [hall, hf]

/-- The float parser rejects any digit-free list. -/
theorem pyFloat_eq_none_of_noDigit (l : List Char) (h : ∀ c ∈ l, c.isDigit = false) :
    pyFloat l = none := by
  by_cases hall : l.all (fun c => c.isDigit || c == '.') = true
  · have hdot : ∀ c ∈ l, c = '.' := by
      intro c hc
      have h1 := List.all_eq_true.mp hall c hc
      have h2 := h c hc
      simp [h2] at h1
      exact h1
    have hrep : l = List.replicate l.length '.' := List.eq_replicate_of_mem hdot
    rw [hrep]
    exact pyFloat_replicate_dot l.length
  · unfold pyFloat
    simp [hall]

/-- `_parse_numeric` returns `None` on any text with no digit in it (so in
particular it never raises there and never returns zero). -/
theorem parse_numeric_eq_none_of_noDigit (t : String)
    (h : ∀ c ∈ t.toList, c.isDigit = false) : parse_numeric t = none := by
  unfold parse_numeric
  by_cases he : t.isEmpty
  · simp [he]
  · rw [if_neg he]
    dsimp only
    have hclean : ∀ c ∈ t.toList.filter isNumChar, c.isDigit = false := fun c hc =>
      h c (List.mem_of_mem_filter hc)
    split_ifs with h1 h2
    · apply pyFloat_eq_none_of_noDigit
      intro c hc
      rcases List.mem_map.mp hc with ⟨a, ha, rfl⟩
      have ha2 := hclean a (List.mem_of_mem_filter ha)
      by_cases hcomma : a == ','
      · simp [hcomma]
      · simp [hcomma, ha2]
    · apply pyFloat_eq_none_of_noDigit
      intro c hc
      exact hclean c (List.mem_of_mem_filter hc)
    · exact pyFloat_eq_none_of_noDigit _ hclean

/-- C3: numeric normalization treats a comma as the decimal point and
strips dots as thousands separators when a comma is present, strips dots
when only dots are present, and returns `None` (never an exception, never
zero) on unparseable text: `"1.200"` gives 1200, `"1.200,50"` gives
1200.50, `"no price"` gives no value, and any digit-free text gives no
value. -/
theorem C3_price_normalization :
    parse_numeric "1.200" = some 1200 ∧
    parse_numeric "1.200,50" = some (1200 + 50 / 100 : ℚ) ∧
    parse_numeric "no price" = none ∧
    (∀ t : String, (∀ c ∈ t.toList, c.isDigit = false) → parse_numeric t = none) := by
  refine ⟨?_, ?_, by decide, fun t h => parse_numeric_eq_none_of_noDigit t h⟩
  · have h : parse_numeric "1.200" = some (mkRat 1200 1) := rfl
    rw [h, Rat.mkRat_eq_div]
    norm_num
  · have h : parse_numeric "1.200,50" = some (mkRat 120050 100) := rfl
    rw [h, Rat.mkRat_eq_div]
    norm_num

/-- Witness for C3 at a concrete digit-free input. -/
theorem C3_price_normalization_witness : parse_numeric "precio a consultar" = none :=
  C3_price_normalization.2.2.2 "precio a consultar" (by decide)

/-- A card without an `a.item-link` href parses to `None`. -/
theorem parse_article_of_link_none (card : Card) (bu pt : String) (n : ℕ)
    (h : card.link = none) : parse_article card bu pt n = none := by
  unfold parse_article
  rw [h]

/-- C6 counterexample: on a page whose next-page link is the page's own
absolute URL, `find_next_page_url` returns that URL rather than `None` —
the parser performs no cycle prevention. -/
theorem C6_counterexample :
    find_next_page_url
      ⟨[], some (some "https://www.idealista.com/alquiler-viviendas/madrid/")⟩
      "https://www.idealista.com/alquiler-viviendas/madrid/" ≠ none ∧
    find_next_page_url
      ⟨[], some (some "https://www.idealista.com/alquiler-viviendas/madrid/")⟩
      "https://www.idealista.com/alquiler-viviendas/madrid/"
      = some "https://www.idealista.com/alquiler-viviendas/madrid/" := by
  constructor
  · decide
  · decide

/-- C6 (amended): `find_next_page_url` returns `None` exactly when no
next-page control with an `href` is present; otherwise it returns the
link resolved against the page URL, even when the resolved URL equals the
page URL itself (cycle prevention happens in the caller `scrape_target`,
not in the parser). -/
theorem C6_next_page_resolution (page : Page) (base_url : String) :
    (find_next_page_url page base_url = none ↔
      ∀ href, page.nextLink ≠ some (some href)) ∧
    (∀ href, page.nextLink = some (some href) →
      find_next_page_url page base_url = some (urljoin base_url href)) := by
  have hmain : ∀ href, page.nextLink = some (some href) →
      find_next_page_url page base_url = some (urljoin base_url href) := by
    intro href hn
    unfold find_next_page_url
    rw [hn]
  refine ⟨⟨?_, ?_⟩, hmain⟩
  · intro h href hn
    rw [hmain href hn] at h
    cases h
  · intro h
    rcases hn : page.nextLink with _ | oh
    · simp [find_next_page_url, hn]
    · rcases oh with _ | href
      · simp [find_next_page_url, hn]
      · exact absurd hn (h href)

/-- Witness for C6 (amended) on a concrete relative next link. -/
theorem C6_next_page_resolution_witness :
    find_next_page_url ⟨[], some (some "/alquiler-viviendas/madrid/pagina-2.htm")⟩
        "https://www.idealista.com/alquiler-viviendas/madrid/"
      = some (urljoin "https://www.idealista.com/alquiler-viviendas/madrid/"
          "/alquiler-viviendas/madrid/pagina-2.htm") :=
  (C6_next_page_resolution ⟨[], some (some "/alquiler-viviendas/madrid/pagina-2.htm")⟩
      "https://www.idealista.com/alquiler-viviendas/madrid/").2
    "/alquiler-viviendas/madrid/pagina-2.htm" rfl

/-- C8 counterexample: a root-relative listing href on a page whose own
URL has a different host is resolved against the hardcoded
`https://www.idealista.com`, not against the page URL. -/
theorem C8_counterexample :
    ((parse_article ⟨some "/inmueble/1", "piso en x", none, none, [], none, none, none⟩
        "https://example.org/list" "viviendas" 0).map Listing.url
      = some "https://www.idealista.com/inmueble/1") ∧
    urljoin "https://example.org/list" "/inmueble/1" = "https://example.org/inmueble/1" ∧
    ("https://www.idealista.com/inmueble/1" : String) ≠ "https://example.org/inmueble/1" := by
  refine ⟨by decide, by decide, by decide⟩

/-- C8 (amended): a protocol-relative href gets `https:` prepended; a
root-relative href is resolved against the hardcoded domain
`https://www.idealista.com`; any other href is used as-is; and the page
URL passed to the parser plays no role in the listing-URL computation. -/
theorem C8_url_resolution (card : Card) (href bu1 bu2 pt : String) (n : ℕ)
    (h : card.link = some href) :
    ((parse_article card bu1 pt n).map Listing.url =
      some (if strStarts (pyStrip href) "//" then "https:" ++ pyStrip href
        else if strStarts (pyStrip href) "/" then
          urljoin "https://www.idealista.com" (pyStrip href)
        else pyStrip href)) ∧
    (parse_article card bu1 pt n).map Listing.url =
      (parse_article card bu2 pt n).map Listing.url := by
  unfold parse_article
  rw [h]
  exact ⟨rfl, rfl⟩

/-- Witness for C8 (amended): the listing URL is the same whatever page
URL the parser was given. -/
theorem C8_url_resolution_witness :
    (parse_article ⟨some "/inmueble/2", "t", none, none, [], none, none, none⟩
        "https://b.org/p" "viviendas" 0).map Listing.url =
      (parse_article ⟨some "/inmueble/2", "t", none, none, [], none, none, none⟩
        "https://c.org/q" "viviendas" 0).map Listing.url :=
  (C8_url_resolution ⟨some "/inmueble/2", "t", none, none, [], none, none, none⟩
    "/inmueble/2" "https://b.org/p" "https://c.org/q" "viviendas" 0 rfl).2

/-- C4: a malformed card (one with no URL) is dropped without affecting
anything else — removing it from the page changes nothing, every card that
parses is extracted, next-page detection is independent of the cards, and
on a concrete page of 3 cards whose second lacks its URL exactly 2
listings come out. -/
theorem C4_card_fault_isolation :
    (∀ (pre post : List Card) (bad : Card) (nl : Option (Option String))
        (bu pt : String) (n : ℕ), bad.link = none →
      extract_listings_from_page ⟨pre ++ bad :: post, nl⟩ bu pt n =
        extract_listings_from_page ⟨pre ++ post, nl⟩ bu pt n) ∧
    (∀ (page : Page) (c : Card) (bu pt : String) (n : ℕ) (l : Listing),
      c ∈ page.cards → parse_article c bu pt n = some l →
      l ∈ extract_listings_from_page page bu pt n) ∧
    (∀ (cards cards' : List Card) (nl : Option (Option String)) (bu : String),
      find_next_page_url ⟨cards, nl⟩ bu = find_next_page_url ⟨cards', nl⟩ bu) ∧
    (extract_listings_from_page
        ⟨[⟨some "/a1", "piso en a", none, none, [], none, none, none⟩,
          ⟨none, "piso en b", none, none, [], none, none, none⟩,
          ⟨some "/a3", "piso en c", none, none, [], none, none, none⟩], none⟩
        "https://www.idealista.com/alquiler-viviendas/madrid/" "viviendas" 0).length = 2 := by
  refine ⟨?_, ?_, fun cards cards' nl bu => rfl, by decide⟩
  · intro pre post bad nl bu pt n hbad
    simp [extract_listings_from_page, parse_article_of_link_none bad bu pt n hbad]
  · intro page c bu pt n l hc hl
    unfold extract_listings_from_page
    apply List.mem_filterMap.mpr
    refine ⟨some l, ?_, rfl⟩
    have hm := List.mem_map_of_mem (fun c => parse_article c bu pt n) hc
    simp only at hm
    rw [hl] at hm
    exact hm

/-- Witness for C4: dropping the bad middle card of a concrete 3-card page
leaves the extraction unchanged. -/
theorem C4_card_fault_isolation_witness :
    extract_listings_from_page
      ⟨[⟨some "/a1", "piso en a", none, none, [], none, none, none⟩] ++
        ⟨none, "piso en b", none, none, [], none, none, none⟩ ::
        [⟨some "/a3", "piso en c", none, none, [], none, none, none⟩], none⟩
      "https://www.idealista.com/alquiler-viviendas/madrid/" "viviendas" 0 =
    extract_listings_from_page
      ⟨[⟨some "/a1", "piso en a", none, none, [], none, none, none⟩] ++
        [⟨some "/a3", "piso en c", none, none, [], none, none, none⟩], none⟩
      "https://www.idealista.com/alquiler-viviendas/madrid/" "viviendas" 0 :=
  C4_card_fault_isolation.1
    [⟨some "/a1", "piso en a", none, none, [], none, none, none⟩]
    [⟨some "/a3", "piso en c", none, none, [], none, none, none⟩]
    ⟨none, "piso en b", none, none, [], none, none, none⟩ none
    "https://www.idealista.com/alquiler-viviendas/madrid/" "viviendas" 0 rfl

/-- Iterating the request counter leaves everything but the count alone. -/
theorem increment_iterate (n : ℕ) (s : HMState) :
    increment_request_count^[n] s = { s with request_count := s.request_count + n } := by
  induction n with
  | zero => simp
  | succ k ih =>
    rw [Function.iterate_succ_apply', ih]
    simp [increment_request_count, Nat.add_assoc]

/-- The instrumentation bit of `get_headers` is the refresh predicate. -/
theorem get_headers_bit (cfg : ScraperConfig) (gen : GenOutcome) (ua : String)
    (now : ℕ) (s : HMState) :
    (get_headers cfg gen ua now s).2.2 = should_refresh_headers cfg now s := by
  unfold get_headers
  split_ifs with h
  · exact h.symm
  · simp only [Bool.not_eq_true] at h
    exact h.symm

/-- C2: `get_headers` refreshes exactly when no session exists yet, or the
request count since the last refresh reached the configured threshold, or
the wall-clock age since the last refresh reached the interval; and after
threshold-many `increment_request_count` calls on a freshly refreshed
state, the next `get_headers` call refreshes, stamping a refresh time
distinct from the previous one (the clock having advanced). -/
theorem C2_header_refresh_policy :
    (∀ (cfg : ScraperConfig) (gen : GenOutcome) (ua : String) (now : ℕ) (s : HMState),
      (get_headers cfg gen ua now s).2.2 = true ↔
        (s.headers = none ∨ cfg.header_refresh_requests ≤ s.request_count ∨
          refresh_interval_seconds ≤ now - s.last_refresh_time)) ∧
    (∀ (cfg : ScraperConfig) (gen : GenOutcome) (ua : String) (t0 now : ℕ) (h0 : Headers),
      t0 < now →
      (get_headers cfg gen ua now
        (increment_request_count^[cfg.header_refresh_requests] ⟨some h0, 0, t0⟩)).2.2 = true ∧
      (get_headers cfg gen ua now
        (increment_request_count^[cfg.header_refresh_requests]
          ⟨some h0, 0, t0⟩)).2.1.last_refresh_time = now ∧
      (get_headers cfg gen ua now
        (increment_request_count^[cfg.header_refresh_requests]
          ⟨some h0, 0, t0⟩)).2.1.last_refresh_time ≠ t0) := by
  constructor
  · intro cfg gen ua now s
    rw [get_headers_bit]
    unfold should_refresh_headers
    simp only [Bool.or_eq_true, decide_eq_true_eq, Option.isNone_iff_eq_none]
    tauto
  · intro cfg gen ua t0 now h0 ht
    have hs : increment_request_count^[cfg.header_refresh_requests]
        (⟨some h0, 0, t0⟩ : HMState) =
        ⟨some h0, cfg.header_refresh_requests, t0⟩ := by
      rw [increment_iterate]
      simp
    have hshould : should_refresh_headers cfg now
        ⟨some h0, cfg.header_refresh_requests, t0⟩ = true := by
      simp [should_refresh_headers]
    rw [hs]
    unfold get_headers
    rw [if_pos hshould]
    refine ⟨rfl, rfl, ?_⟩
    show now ≠ t0
    omega

/-- Witness for C2: with the default threshold, 100 bookkeeping calls then
one `get_headers` at a later instant refresh the session. -/
theorem C2_header_refresh_policy_witness :
    (get_headers defaultConfig GenOutcome.failure "ua" 7
      (increment_request_count^[defaultConfig.header_refresh_requests]
        ⟨some [("User-Agent", "x")], 0, 3⟩)).2.2 = true ∧
    (get_headers defaultConfig GenOutcome.failure "ua" 7
      (increment_request_count^[defaultConfig.header_refresh_requests]
        ⟨some [("User-Agent", "x")], 0, 3⟩)).2.1.last_refresh_time = 7 ∧
    (get_headers defaultConfig GenOutcome.failure "ua" 7
      (increment_request_count^[defaultConfig.header_refresh_requests]
        ⟨some [("User-Agent", "x")], 0, 3⟩)).2.1.last_refresh_time ≠ 3 :=
  C2_header_refresh_policy.2 defaultConfig GenOutcome.failure "ua" 3 7
    [("User-Agent", "x")] (by decide)

/-- Header generation never yields an empty mapping. -/
theorem generate_session_headers_ne_nil (gen : GenOutcome) (ua : String) :
    generate_session_headers gen ua ≠ [] := by
  cases gen with
  | failure => simp [generate_session_headers, get_fallback_headers]
  | captured hs dd =>
    unfold generate_session_headers
    dsimp only
    by_cases hemp : hs.isEmpty
    · simp [hemp, get_fallback_headers]
    · rw [if_neg hemp]
      cases dd with
      | none => exact fun h => hemp (by simp_all)
      | some v =>
        unfold setKey
        split_ifs with hany
        · intro h
          rw [List.map_eq_nil_iff] at h
          exact hemp (by simp [h])
        · intro h
          simp at h

/-- C9: header-generation failure is absorbed inside the provider — every
generation outcome (including an exception and an empty capture) yields a
non-empty header set, `refresh_headers` stores exactly that set, and
`get_headers` always hands back a non-null, non-empty mapping (given the
invariant that any already-stored mapping is non-empty, which refreshes
maintain). -/
theorem C9_generation_fallback :
    (∀ (gen : GenOutcome) (ua : String), generate_session_headers gen ua ≠ []) ∧
    (∀ (gen : GenOutcome) (ua : String) (now : ℕ) (s : HMState),
      (refresh_headers gen ua now s).headers = some (generate_session_headers gen ua) ∧
      generate_session_headers gen ua ≠ []) ∧
    (∀ (cfg : ScraperConfig) (gen : GenOutcome) (ua : String) (now : ℕ) (s : HMState),
      (∀ h, s.headers = some h → h ≠ []) →
      ∃ h, (get_headers cfg gen ua now s).1 = some h ∧ h ≠ []) := by
  refine ⟨generate_session_headers_ne_nil,
    fun gen ua now s => ⟨rfl, generate_session_headers_ne_nil gen ua⟩, ?_⟩
  intro cfg gen ua now s hinv
  unfold get_headers
  split_ifs with h
  · exact ⟨generate_session_headers gen ua, rfl, generate_session_headers_ne_nil gen ua⟩
  · unfold should_refresh_headers at h
    simp only [Bool.or_eq_true, Option.isNone_iff_eq_none, decide_eq_true_eq] at h
    push_neg at h
    rcases hh : s.headers with _ | hv
    · exact absurd hh h.1.1
    · exact ⟨hv, by simp [hh], hinv hv hh⟩

/-- Witness for C9 at the initial manager state and a failing generator. -/
theorem C9_generation_fallback_witness :
    ∃ h, (get_headers defaultConfig GenOutcome.failure "ua" 0 HMState.init).1 = some h ∧
      h ≠ [] :=
  C9_generation_fallback.2.2 defaultConfig GenOutcome.failure "ua" 0 HMState.init
    (by intro h hh; simp [HMState.init] at hh)

/-- Splicing one back-off sleep in front of the later sleeps gives the full
back-off schedule. -/
theorem backoff_append (d : ℚ) (attempt k : ℕ) :
    (if 0 < k then [d * 2 ^ attempt] else []) ++
      (List.range (k - 1)).map (fun i => d * 2 ^ (attempt + 1 + i)) =
      (List.range k).map (fun i => d * 2 ^ (attempt + i)) := by
  cases k with
  | zero => simp
  | succ m =>
    rw [if_pos (Nat.succ_pos m), List.range_succ_eq_map, List.map_cons, List.map_map]
    simp only [Nat.succ_sub_one, List.singleton_append, List.cons.injEq]
    refine ⟨by simp, List.map_congr_left ?_⟩
    intro i _
    simp only [Function.comp]
    congr 2
    omega

/-- When no attempt ever succeeds, the retry loop of `make_request` uses
its whole budget of `r` attempts, sleeps `delay * 2^attempt` between
consecutive attempts, and ends in the raise. -/
theorem make_request_go_all_fail (cfg : ScraperConfig) (oracle : ℕ → HttpOutcome)
    (gen : GenOutcome) (ua : String) (now : ℕ) (headers : Headers)
    (hfail : ∀ i c, oracle i ≠ HttpOutcome.success c) :
    ∀ (r attempt : ℕ) (s : HMState),
      (make_request_go cfg oracle gen ua now headers s attempt r).attempts = r ∧
      (make_request_go cfg oracle gen ua now headers s attempt r).sleeps =
        (List.range (r - 1)).map (fun i => cfg.delay * 2 ^ (attempt + i)) ∧
      ∃ e, (make_request_go cfg oracle gen ua now headers s attempt r).result =
        Except.error e := by
  intro r
  induction r with
  | zero =>
    intro attempt s
    exact ⟨rfl, by simp [make_request_go], "Max retries exceeded for URL", rfl⟩
  | succ k ih =>
    intro attempt s
    rcases ho : oracle attempt with content | code | _
    · exact absurd ho (hfail attempt content)
    · unfold make_request_go
      rw [ho]
      dsimp only
      obtain ⟨ha, hsl, e, he⟩ := ih (attempt + 1)
        (if code = 403 ∨ code = 429 then
          refresh_headers gen ua now (increment_request_count s)
        else increment_request_count s)
      refine ⟨by rw [ha], ?_, e, he⟩
      rw [hsl, Nat.add_sub_cancel]
      exact backoff_append cfg.delay attempt k
    · unfold make_request_go
      rw [ho]
      dsimp only
      obtain ⟨ha, hsl, e, he⟩ := ih (attempt + 1) s
      refine ⟨by rw [ha], ?_, e, he⟩
      rw [hsl, Nat.add_sub_cancel]
      exact backoff_append cfg.delay attempt k

/-- The start URL built by `scrape_target` is never the empty string (so
the `while current_url` test passes on entry). -/
theorem build_start_url_ne_empty (slug pt : String) : build_start_url slug pt ≠ "" := by
  intro h
  have h2 := congrArg String.length h
  rw [build_start_url] at h2
  simp only [String.length_append] at h2
  have h3 : ("https://www.idealista.com/alquiler-" : String).length = 35 := rfl
  have h4 : ("" : String).length = 0 := rfl
  omega

/-- C1: with a client that fails on every attempt, `make_request` issues
exactly `max_retries` attempts, sleeping `delay * 2^attempt` between
consecutive attempts, and ends in the raise; `scrape_target` catches that
raise and abandons the target — it fetches only the start URL, saves
nothing, and returns normally. -/
theorem C1_retry_backoff_abandon (cfg : ScraperConfig)
    (world : String → ℕ → HttpOutcome) (gen : GenOutcome) (ua : String)
    (now nowIso : ℕ) (slug pt : String) (s : HMState)
    (hfail : ∀ i c, world (build_start_url slug pt) i ≠ HttpOutcome.success c)
    (hpages : 1 ≤ cfg.max_pages) :
    (make_request cfg (world (build_start_url slug pt)) gen ua now s).attempts =
      cfg.max_retries ∧
    (make_request cfg (world (build_start_url slug pt)) gen ua now s).sleeps =
      (List.range (cfg.max_retries - 1)).map (fun i => cfg.delay * 2 ^ i) ∧
    (∃ e, (make_request cfg (world (build_start_url slug pt)) gen ua now s).result =
      Except.error e) ∧
    (scrape_target cfg world gen ua now nowIso slug pt s).fetched =
      [build_start_url slug pt] ∧
    (scrape_target cfg world gen ua now nowIso slug pt s).saved = [] := by
  have hmr : make_request cfg (world (build_start_url slug pt)) gen ua now s =
      make_request_go cfg (world (build_start_url slug pt)) gen ua now
        ((get_headers cfg gen ua now s).1.getD [])
        (get_headers cfg gen ua now s).2.1 0 cfg.max_retries := rfl
  obtain ⟨ha, hsl, e, he⟩ := make_request_go_all_fail cfg
    (world (build_start_url slug pt)) gen ua now
    ((get_headers cfg gen ua now s).1.getD []) hfail cfg.max_retries 0
    (get_headers cfg gen ua now s).2.1
  have hcond : ¬(build_start_url slug pt = "" ∨ cfg.max_pages < 1) := by
    push_neg
    exact ⟨build_start_url_ne_empty slug pt, hpages⟩
  have hscrape : scrape_target cfg world gen ua now nowIso slug pt s =
      ⟨[build_start_url slug pt], [],
        (make_request cfg (world (build_start_url slug pt)) gen ua now s).refreshes⟩ := by
    unfold scrape_target scrape_target_go
    rw [if_neg hcond]
    dsimp only
    rw [hmr, he]
  refine ⟨by rw [hmr, ha], ?_, ⟨e, by rw [hmr, he]⟩, by rw [hscrape], by rw [hscrape]⟩
  rw [hmr, hsl]
  simp

/-- Witness for C1: default configuration, a client that always answers
HTTP 500. -/
theorem C1_retry_backoff_abandon_witness :
    (make_request defaultConfig
      ((fun _ _ => HttpOutcome.statusError 500) (build_start_url "madrid" "viviendas"))
      GenOutcome.failure "ua" 0 HMState.init).attempts = defaultConfig.max_retries ∧
    (make_request defaultConfig
      ((fun _ _ => HttpOutcome.statusError 500) (build_start_url "madrid" "viviendas"))
      GenOutcome.failure "ua" 0 HMState.init).sleeps =
      (List.range (defaultConfig.max_retries - 1)).map
        (fun i => defaultConfig.delay * 2 ^ i) ∧
    (∃ e, (make_request defaultConfig
      ((fun _ _ => HttpOutcome.statusError 500) (build_start_url "madrid" "viviendas"))
      GenOutcome.failure "ua" 0 HMState.init).result = Except.error e) ∧
    (scrape_target defaultConfig (fun _ _ => HttpOutcome.statusError 500)
      GenOutcome.failure "ua" 0 0 "madrid" "viviendas" HMState.init).fetched =
      [build_start_url "madrid" "viviendas"] ∧
    (scrape_target defaultConfig (fun _ _ => HttpOutcome.statusError 500)
      GenOutcome.failure "ua" 0 0 "madrid" "viviendas" HMState.init).saved = [] :=
  C1_retry_backoff_abandon defaultConfig (fun _ _ => HttpOutcome.statusError 500)
    GenOutcome.failure "ua" 0 0 "madrid" "viviendas" HMState.init
    (fun _ _ h => HttpOutcome.noConfusion h) (by decide)

/-- A first-attempt success returns the body at once: one attempt, no
sleep, no refresh. -/
theorem make_request_first_ok (cfg : ScraperConfig) (oracle : ℕ → HttpOutcome)
    (gen : GenOutcome) (ua : String) (now : ℕ) (s : HMState) (html : Html)
    (hretry : 1 ≤ cfg.max_retries) (h0 : oracle 0 = HttpOutcome.success html) :
    (make_request cfg oracle gen ua now s).result = Except.ok html ∧
    (make_request cfg oracle gen ua now s).attempts = 1 ∧
    (make_request cfg oracle gen ua now s).refreshes = 0 := by
  obtain ⟨k, hk⟩ : ∃ k, cfg.max_retries = k + 1 := ⟨cfg.max_retries - 1, by omega⟩
  unfold make_request
  rw [hk]
  unfold make_request_go
  rw [h0]
  exact ⟨rfl, rfl, rfl⟩

/-- A 403 on the first attempt followed by a 200 on the second: two
attempts, exactly one forced refresh, success, the same header mapping
sent on both attempts, and a final manager state holding the regenerated
headers. -/
theorem make_request_403_then_ok (cfg : ScraperConfig) (oracle : ℕ → HttpOutcome)
    (gen : GenOutcome) (ua : String) (now : ℕ) (s : HMState) (html : Html)
    (hretry : 2 ≤ cfg.max_retries)
    (h0 : oracle 0 = HttpOutcome.statusError 403)
    (h1 : oracle 1 = HttpOutcome.success html) :
    (make_request cfg oracle gen ua now s).attempts = 2 ∧
    (make_request cfg oracle gen ua now s).refreshes = 1 ∧
    (make_request cfg oracle gen ua now s).result = Except.ok html ∧
    (make_request cfg oracle gen ua now s).sentHeaders =
      [(get_headers cfg gen ua now s).1.getD [],
        (get_headers cfg gen ua now s).1.getD []] ∧
    (make_request cfg oracle gen ua now s).finalState =
      increment_request_count (refresh_headers gen ua now
        (increment_request_count (get_headers cfg gen ua now s).2.1)) := by
  obtain ⟨k, hk⟩ : ∃ k, cfg.max_retries = k + 2 := ⟨cfg.max_retries - 2, by omega⟩
  unfold make_request
  rw [hk]
  unfold make_request_go
  rw [h0]
  dsimp only
  rw [if_pos (Or.inl rfl), if_pos (Or.inl rfl)]
  unfold make_request_go
  rw [show (0 + 1 : ℕ) = 1 from rfl, h1]
  exact ⟨rfl, rfl, rfl, rfl, rfl⟩

/-- Every header mapping the retry loop hands to the HTTP client is the
one bound before the loop. -/
theorem make_request_go_sent_const (cfg : ScraperConfig) (oracle : ℕ → HttpOutcome)
    (gen : GenOutcome) (ua : String) (now : ℕ) (headers : Headers) :
    ∀ (r attempt : ℕ) (s : HMState),
      ∀ hs ∈ (make_request_go cfg oracle gen ua now headers s attempt r).sentHeaders,
        hs = headers := by
  intro r
  induction r with
  | zero =>
    intro attempt s hs h
    simp [make_request_go] at h
  | succ k ih =>
    intro attempt s hs h
    unfold make_request_go at h
    rcases ho : oracle attempt with content | code | _ <;> rw [ho] at h <;> dsimp only at h
    · simpa using h
    · rcases List.mem_cons.mp h with rfl | h2
      · rfl
      · exact ih (attempt + 1) _ hs h2
    · rcases List.mem_cons.mp h with rfl | h2
      · rfl
      · exact ih (attempt + 1) s hs h2

/-- When the first page fetch succeeds, the body is non-empty, and the
next-page link is absent or resolves to the page itself, `scrape_target`
processes exactly that one page. -/
theorem scrape_target_one_page (cfg : ScraperConfig)
    (world : String → ℕ → HttpOutcome) (gen : GenOutcome) (ua : String)
    (now nowIso : ℕ) (slug pt : String) (s : HMState) (html : Html)
    (hpages : 1 ≤ cfg.max_pages)
    (hok : (make_request cfg (world (build_start_url slug pt)) gen ua now s).result =
      Except.ok html)
    (hbody : html.emptyText = false)
    (hnext : find_next_page_url html.page (build_start_url slug pt) = none ∨
      find_next_page_url html.page (build_start_url slug pt) =
        some (build_start_url slug pt)) :
    scrape_target cfg world gen ua now nowIso slug pt s =
      ⟨[build_start_url slug pt],
        extract_listings_from_page html.page (build_start_url slug pt) pt nowIso,
        (make_request cfg (world (build_start_url slug pt)) gen ua now s).refreshes⟩ := by
  have hcond : ¬(build_start_url slug pt = "" ∨ cfg.max_pages < 1) := by
    push_neg
    exact ⟨build_start_url_ne_empty slug pt, hpages⟩
  unfold scrape_target scrape_target_go
  rw [if_neg hcond]
  dsimp only
  rw [hok]
  dsimp only
  rw [hbody, if_neg Bool.false_ne_true]
  by_cases hemp :
    (extract_listings_from_page html.page (build_start_url slug pt) pt nowIso).isEmpty
  · rw [if_pos hemp]
    rw [List.isEmpty_iff.mp hemp]
  · rw [if_neg hemp]
    rcases hnext with hn | hn
    · rw [hn]
    · rw [hn]
      dsimp only
      rw [if_neg (by simp)]

/-- C5: on a page whose next-page link resolves to the page's own URL,
`scrape_target` fetches, parses and persists exactly that one page and
stops — it never re-fetches the URL, because pagination only advances
when the next URL differs from the current one. -/
theorem C5_pagination_termination (cfg : ScraperConfig)
    (world : String → ℕ → HttpOutcome) (gen : GenOutcome) (ua : String)
    (now nowIso : ℕ) (slug pt : String) (s : HMState) (html : Html)
    (hpages : 1 ≤ cfg.max_pages) (hretry : 1 ≤ cfg.max_retries)
    (hfetch : world (build_start_url slug pt) 0 = HttpOutcome.success html)
    (hbody : html.emptyText = false)
    (hself : find_next_page_url html.page (build_start_url slug pt) =
      some (build_start_url slug pt)) :
    (scrape_target cfg world gen ua now nowIso slug pt s).fetched =
      [build_start_url slug pt] ∧
    (scrape_target cfg world gen ua now nowIso slug pt s).saved =
      extract_listings_from_page html.page (build_start_url slug pt) pt nowIso := by
  obtain ⟨hok, -, -⟩ := make_request_first_ok cfg (world (build_start_url slug pt))
    gen ua now s html hretry hfetch
  have h := scrape_target_one_page cfg world gen ua now nowIso slug pt s html
    hpages hok hbody (Or.inr hself)
  rw [h]
  exact ⟨rfl, rfl⟩

/-- Witness for C5: a concrete page whose next link is the empty href,
which resolves to the page's own URL. -/
theorem C5_pagination_termination_witness :
    (scrape_target defaultConfig
      (fun _ _ => HttpOutcome.success ⟨false, ⟨[], some (some "")⟩⟩)
      GenOutcome.failure "ua" 0 0 "madrid" "viviendas" HMState.init).fetched =
      [build_start_url "madrid" "viviendas"] ∧
    (scrape_target defaultConfig
      (fun _ _ => HttpOutcome.success ⟨false, ⟨[], some (some "")⟩⟩)
      GenOutcome.failure "ua" 0 0 "madrid" "viviendas" HMState.init).saved =
      extract_listings_from_page ⟨[], some (some "")⟩
        (build_start_url "madrid" "viviendas") "viviendas" 0 :=
  C5_pagination_termination defaultConfig
    (fun _ _ => HttpOutcome.success ⟨false, ⟨[], some (some "")⟩⟩)
    GenOutcome.failure "ua" 0 0 "madrid" "viviendas" HMState.init
    ⟨false, ⟨[], some (some "")⟩⟩ (by decide) (by decide) rfl rfl (by decide)

/-- C7: an HTTP 403 triggers a forced header refresh and a retry of the
same URL without advancing pages, within the retry budget: with a client
answering 403 once then 200, `make_request` performs exactly two attempts
with exactly one refresh and succeeds, and `scrape_target` still
processes that page in full — no page is skipped. -/
theorem C7_blocked_status_refresh (cfg : ScraperConfig)
    (world : String → ℕ → HttpOutcome) (gen : GenOutcome) (ua : String)
    (now nowIso : ℕ) (slug pt : String) (s : HMState) (html : Html)
    (hretry : 2 ≤ cfg.max_retries) (hpages : 1 ≤ cfg.max_pages)
    (h0 : world (build_start_url slug pt) 0 = HttpOutcome.statusError 403)
    (h1 : world (build_start_url slug pt) 1 = HttpOutcome.success html)
    (hbody : html.emptyText = false)
    (hnl : html.page.nextLink = none) :
    (make_request cfg (world (build_start_url slug pt)) gen ua now s).refreshes = 1 ∧
    (make_request cfg (world (build_start_url slug pt)) gen ua now s).result =
      Except.ok html ∧
    (make_request cfg (world (build_start_url slug pt)) gen ua now s).attempts = 2 ∧
    (scrape_target cfg world gen ua now nowIso slug pt s).fetched =
      [build_start_url slug pt] ∧
    (scrape_target cfg world gen ua now nowIso slug pt s).saved =
      extract_listings_from_page html.page (build_start_url slug pt) pt nowIso ∧
    (scrape_target cfg world gen ua now nowIso slug pt s).refreshes = 1 := by
  obtain ⟨hat, href, hok, -, -⟩ := make_request_403_then_ok cfg
    (world (build_start_url slug pt)) gen ua now s html hretry h0 h1
  have hnone : find_next_page_url html.page (build_start_url slug pt) = none := by
    unfold find_next_page_url
    rw [hnl]
  have h := scrape_target_one_page cfg world gen ua now nowIso slug pt s html
    hpages hok hbody (Or.inl hnone)
  rw [h]
  exact ⟨href, hok, hat, rfl, rfl, href⟩

/-- Witness for C7: a concrete client answering 403 then 200 with an
empty listing page. -/
theorem C7_blocked_status_refresh_witness :
    (make_request defaultConfig
      ((fun _ i => if i = 0 then HttpOutcome.statusError 403
        else HttpOutcome.success ⟨false, ⟨[], none⟩⟩) (build_start_url "madrid" "viviendas"))
      GenOutcome.failure "ua" 0 HMState.init).refreshes = 1 ∧
    (make_request defaultConfig
      ((fun _ i => if i = 0 then HttpOutcome.statusError 403
        else HttpOutcome.success ⟨false, ⟨[], none⟩⟩) (build_start_url "madrid" "viviendas"))
      GenOutcome.failure "ua" 0 HMState.init).result =
      Except.ok ⟨false, ⟨[], none⟩⟩ ∧
    (make_request defaultConfig
      ((fun _ i => if i = 0 then HttpOutcome.statusError 403
        else HttpOutcome.success ⟨false, ⟨[], none⟩⟩) (build_start_url "madrid" "viviendas"))
      GenOutcome.failure "ua" 0 HMState.init).attempts = 2 ∧
    (scrape_target defaultConfig
      (fun _ i => if i = 0 then HttpOutcome.statusError 403
        else HttpOutcome.success ⟨false, ⟨[], none⟩⟩)
      GenOutcome.failure "ua" 0 0 "madrid" "viviendas" HMState.init).fetched =
      [build_start_url "madrid" "viviendas"] ∧
    (scrape_target defaultConfig
      (fun _ i => if i = 0 then HttpOutcome.statusError 403
        else HttpOutcome.success ⟨false, ⟨[], none⟩⟩)
      GenOutcome.failure "ua" 0 0 "madrid" "viviendas" HMState.init).saved =
      extract_listings_from_page ⟨[], none⟩
        (build_start_url "madrid" "viviendas") "viviendas" 0 ∧
    (scrape_target defaultConfig
      (fun _ i => if i = 0 then HttpOutcome.statusError 403
        else HttpOutcome.success ⟨false, ⟨[], none⟩⟩)
      GenOutcome.failure "ua" 0 0 "madrid" "viviendas" HMState.init).refreshes = 1 :=
  C7_blocked_status_refresh defaultConfig
    (fun _ i => if i = 0 then HttpOutcome.statusError 403
      else HttpOutcome.success ⟨false, ⟨[], none⟩⟩)
    GenOutcome.failure "ua" 0 0 "madrid" "viviendas" HMState.init
    ⟨false, ⟨[], none⟩⟩ (by decide) (by decide) rfl rfl rfl rfl

/-- C10: the header mapping every attempt of one `make_request` call
sends is the one obtained by the single `get_headers` call made before
the first attempt; a 403-triggered refresh during the loop replaces the
manager's stored headers but does not change what the remaining attempts
of that same call send. -/
theorem C10_headers_fixed_per_call :
    (∀ (cfg : ScraperConfig) (oracle : ℕ → HttpOutcome) (gen : GenOutcome)
        (ua : String) (now : ℕ) (s : HMState),
      ∀ hs ∈ (make_request cfg oracle gen ua now s).sentHeaders,
        hs = (get_headers cfg gen ua now s).1.getD []) ∧
    (∀ (cfg : ScraperConfig) (oracle : ℕ → HttpOutcome) (gen : GenOutcome)
        (ua : String) (now : ℕ) (s : HMState) (html : Html) (h0 : Headers),
      2 ≤ cfg.max_retries →
      oracle 0 = HttpOutcome.statusError 403 →
      oracle 1 = HttpOutcome.success html →
      s.headers = some h0 →
      should_refresh_headers cfg now s = false →
      (make_request cfg oracle gen ua now s).sentHeaders = [h0, h0] ∧
      (make_request cfg oracle gen ua now s).finalState.headers =
        some (generate_session_headers gen ua)) := by
  constructor
  · intro cfg oracle gen ua now s
    exact make_request_go_sent_const cfg oracle gen ua now _ cfg.max_retries 0 _
  · intro cfg oracle gen ua now s html h0 hretry ho0 ho1 hstore hsf
    obtain ⟨-, -, -, hsent, hfin⟩ := make_request_403_then_ok cfg oracle gen ua now
      s html hretry ho0 ho1
    have hget : (get_headers cfg gen ua now s).1 = some h0 := by
      unfold get_headers
      rw [if_neg (by simp [hsf])]
      exact hstore
    constructor
    · rw [hsent, hget]
      rfl
    · rw [hfin]
      rfl

/-- Witness for C10: stored headers present, no refresh due; a 403 then a
200; both attempts send the stored mapping while the manager ends up
holding the regenerated one. -/
theorem C10_headers_fixed_per_call_witness :
    (make_request defaultConfig
      (fun i => if i = 0 then HttpOutcome.statusError 403
        else HttpOutcome.success ⟨false, ⟨[], none⟩⟩)
      GenOutcome.failure "ua" 5 ⟨some [("User-Agent", "x")], 0, 5⟩).sentHeaders =
      [[("User-Agent", "x")], [("User-Agent", "x")]] ∧
    (make_request defaultConfig
      (fun i => if i = 0 then HttpOutcome.statusError 403
        else HttpOutcome.success ⟨false, ⟨[], none⟩⟩)
      GenOutcome.failure "ua" 5 ⟨some [("User-Agent", "x")], 0, 5⟩).finalState.headers =
      some (generate_session_headers GenOutcome.failure "ua") :=
  C10_headers_fixed_per_call.2 defaultConfig
    (fun i => if i = 0 then HttpOutcome.statusError 403
      else HttpOutcome.success ⟨false, ⟨[], none⟩⟩)
    GenOutcome.failure "ua" 5 ⟨some [("User-Agent", "x")], 0, 5⟩
    ⟨false, ⟨[], none⟩⟩ [("User-Agent", "x")]
    (by decide) rfl rfl rfl (by decide)

end RentalScrapers
